import Mathlib

/-!
Verification of the pump-calculator computation engine.

The Python source (`utils/hydraulic_calcs.py`, `utils/pump_calcs.py`,
`utils/standards.py`) is shallowly embedded over `ℚ`.  Decimal literals of the
source become exact rational literals; `np.pi` is embedded as the exact
rational value of the IEEE-754 double `numpy.pi`.  The transcendental
primitives used by the source (`np.log10`, `np.sqrt`, `np.exp` and the
non-integer power `x ** 0.9`) have no exact rational counterpart, so they are
passed explicitly as a record of abstract functions (`FloatOps`); every
theorem below holds for an arbitrary interpretation of those primitives
unless a hypothesis states the property of the primitive it needs.
Python exceptions are modelled with `Except`, `warnings.warn` with a
`warned` flag on the result, and NumPy arrays with lists.
-/

/-- Abstract interpretations of the floating-point primitives the source
calls from NumPy: `log10 x`, `sqrt x`, `exp x`, and `rpow x y` for the
non-integer power `x ** y`. -/
structure FloatOps where
  log10 : ℚ → ℚ
  sqrt : ℚ → ℚ
  exp : ℚ → ℚ
  rpow : ℚ → ℚ → ℚ

/-- The exact rational value of the IEEE-754 double `numpy.pi`
(3.141592653589793…). -/
def numpyPi : ℚ := 884279719003555 / 281474976710656

namespace HydraulicCalculator

/-- `HydraulicCalculator.GRAVITY = 9.81` (m/s²). -/
def GRAVITY : ℚ := 9.81

/-- Result of a fluid-property lookup: the returned value together with
whether `warnings.warn` was invoked during the call (a non-fatal advisory;
the value is returned and the calculation proceeds either way). -/
structure LookupResult where
  value : ℚ
  warned : Bool
deriving DecidableEq

/-- The `viscosity_table` dict of `get_kinematic_viscosity`, as the sorted
association list produced by `sorted(viscosity_table.keys())` (the dict is
written in ascending key order). -/
def viscosity_table : List (ℚ × ℚ) :=
  [(0, 1.787e-6), (5, 1.519e-6), (10, 1.307e-6), (15, 1.139e-6),
   (20, 1.004e-6), (25, 0.893e-6), (30, 0.801e-6), (40, 0.658e-6),
   (50, 0.553e-6), (60, 0.475e-6), (70, 0.413e-6), (80, 0.364e-6),
   (90, 0.326e-6), (100, 0.294e-6)]

/-- The `density_table` dict of `get_water_density`, in ascending key order. -/
def density_table : List (ℚ × ℚ) :=
  [(0, 999.8), (5, 1000.0), (10, 999.7), (15, 999.1), (20, 998.2),
   (25, 997.0), (30, 995.7), (40, 992.2), (50, 988.0), (60, 983.2),
   (70, 977.8), (80, 971.8), (90, 965.3), (100, 958.4)]

/-- The `if temperature in temps: return table[temperature]` step: scan the
sorted table for an exact anchor match. -/
def exactScan (t : ℚ) : List (ℚ × ℚ) → Option ℚ
  | [] => none
  | p :: rest => if t = p.1 then some p.2 else exactScan t rest

/-- The `for i in range(len(temps) - 1)` loop: scan consecutive anchor pairs
and linearly interpolate in the first bracket `[t1, t2]` containing `t`. -/
def bracketScan (t : ℚ) : List (ℚ × ℚ) → Option ℚ
  | p1 :: p2 :: rest =>
      if p1.1 ≤ t ∧ t ≤ p2.1 then
        some (p1.2 + (p2.2 - p1.2) * (t - p1.1) / (p2.1 - p1.1))
      else bracketScan t (p2 :: rest)
  | _ => none

/-- The shared lookup shape of `get_kinematic_viscosity` and
`get_water_density`: exact match, else bracket interpolation, else the
fallthrough `return table[temps[-1]]` — the value of the LAST (highest)
anchor, reached both above and below the table. -/
def tableLookup (table : List (ℚ × ℚ)) (t : ℚ) : ℚ :=
  match exactScan t table with
  | some v => v
  | none =>
    match bracketScan t table with
    | some v => v
    | none => (table.getLastD (0, 0)).2

/-- `HydraulicCalculator.get_kinematic_viscosity`.  Warns (non-fatally) when
`temperature < 0 or temperature > 100`, then performs the table lookup. -/
def get_kinematic_viscosity (temperature : ℚ) : LookupResult :=
  { value := tableLookup viscosity_table temperature,
    warned := decide (temperature < 0) || decide (100 < temperature) }

/-- `HydraulicCalculator.get_water_density`.  The source contains no
`warnings.warn` call in this function, so `warned` is always `false`. -/
def get_water_density (temperature : ℚ) : LookupResult :=
  { value := tableLookup density_table temperature,
    warned := false }

theorem exactScan_eq_none {t : ℚ} {l : List (ℚ × ℚ)}
    (h : ∀ p ∈ l, t ≠ p.1) : exactScan t l = none := by
  induction l with
  | nil => rfl
  | cons p rest ih =>
    rw [exactScan, if_neg (h p (List.mem_cons_self p rest))]
    exact ih fun q hq => h q (List.mem_cons_of_mem p hq)

theorem bracketScan_eq_none_of_lt {t : ℚ} {l : List (ℚ × ℚ)}
    (h : ∀ p ∈ l, t < p.1) : bracketScan t l = none := by
  induction l with
  | nil => rfl
  | cons p1 rest ih =>
    cases rest with
    | nil => rfl
    | cons p2 rest' =>
      rw [bracketScan, if_neg]
      · exact ih fun q hq => h q (List.mem_cons_of_mem p1 hq)
      · rintro ⟨h1, _⟩
        exact absurd h1 (not_le.mpr (h p1 (List.mem_cons_self p1 _)))

theorem bracketScan_eq_none_of_gt {t : ℚ} {l : List (ℚ × ℚ)}
    (h : ∀ p ∈ l, p.1 < t) : bracketScan t l = none := by
  induction l with
  | nil => rfl
  | cons p1 rest ih =>
    cases rest with
    | nil => rfl
    | cons p2 rest' =>
      rw [bracketScan, if_neg]
      · exact ih fun q hq => h q (List.mem_cons_of_mem p1 hq)
      · rintro ⟨_, h2⟩
        exact absurd h2 (not_le.mpr (h p2 (List.mem_cons_of_mem p1 (List.mem_cons_self p2 _))))

theorem tableLookup_out_of_range {table : List (ℚ × ℚ)} {t : ℚ}
    (hex : ∀ p ∈ table, t ≠ p.1)
    (hbr : bracketScan t table = none) :
    tableLookup table t = (table.getLastD (0, 0)).2 := by
  rw [tableLookup, exactScan_eq_none hex, hbr]

theorem viscosity_anchors_mem :
    ∀ p ∈ viscosity_table, 0 ≤ p.1 ∧ p.1 ≤ 100 := by
  intro p hp
  simp only [viscosity_table, List.mem_cons, List.not_mem_nil, or_false] at hp
  rcases hp with h | h | h | h | h | h | h | h | h | h | h | h | h | h <;>
    rw [h] <;> norm_num

theorem density_anchors_mem :
    ∀ p ∈ density_table, 0 ≤ p.1 ∧ p.1 ≤ 100 := by
  intro p hp
  simp only [density_table, List.mem_cons, List.not_mem_nil, or_false] at hp
  rcases hp with h | h | h | h | h | h | h | h | h | h | h | h | h | h <;>
    rw [h] <;> norm_num

theorem tableLookup_clamps {table : List (ℚ × ℚ)} {t : ℚ}
    (hanchors : ∀ p ∈ table, 0 ≤ p.1 ∧ p.1 ≤ 100)
    (h : t < 0 ∨ 100 < t) :
    tableLookup table t = (table.getLastD (0, 0)).2 := by
  rcases h with h | h
  · refine tableLookup_out_of_range (fun p hp => ?_)
      (bracketScan_eq_none_of_lt fun p hp => lt_of_lt_of_le h (hanchors p hp).1)
    exact ne_of_lt (lt_of_lt_of_le h (hanchors p hp).1)
  · refine tableLookup_out_of_range (fun p hp => ?_)
      (bracketScan_eq_none_of_gt fun p hp => lt_of_le_of_lt (hanchors p hp).2 h)
    exact (ne_of_lt (lt_of_le_of_lt (hanchors p hp).2 h)).symm

/-- Python exceptions raised by the hydraulic calculator: `ValueError` and
`RuntimeError` are distinct kinds of failure. -/
inductive CalcError
  | valueError (msg : String)
  | runtimeError (msg : String)
deriving DecidableEq

/-- `HydraulicCalculator.reynolds_number`: `(v * D) / ν`, raising
`ValueError` when any argument is non-positive. -/
def reynolds_number (velocity diameter viscosity : ℚ) : Except CalcError ℚ :=
  if velocity ≤ 0 ∨ diameter ≤ 0 ∨ viscosity ≤ 0 then
    .error (.valueError "All parameters must be positive")
  else
    .ok ((velocity * diameter) / viscosity)

/-- One step of the Colebrook-White fixed-point iteration:
`f ← 0.25 / (log10(ε/(3.7 D) + 2.51/(Re √f)))²` (the loop body of
`friction_factor_colebrook`, with `relRough = roughness / diameter`). -/
def colebrookStep (ops : FloatOps) (relRough reynolds f : ℚ) : ℚ :=
  0.25 / (ops.log10 (relRough / 3.7 + 2.51 / (reynolds * ops.sqrt f))) ^ 2

/-- The `for iteration in range(max_iter)` loop of
`friction_factor_colebrook`: iterate `colebrookStep` from the current
iterate, returning the new iterate as soon as it differs from the previous
one by less than `tol`; when the budget runs out, raise `RuntimeError`
(the source message interpolates `max_iter` into the text). -/
def colebrookIter (ops : FloatOps) (relRough reynolds tol : ℚ) :
    ℚ → Nat → Except CalcError ℚ
  | _, 0 => .error (.runtimeError "Colebrook iteration did not converge")
  | f, n + 1 =>
    let fNew := colebrookStep ops relRough reynolds f
    if |fNew - f| < tol then .ok fNew
    else colebrookIter ops relRough reynolds tol fNew n

/-- `HydraulicCalculator.friction_factor_colebrook`: rejects `Re < 4000`
with `ValueError`, seeds the iteration with the Swamee-Jain explicit
approximation, then runs the bounded fixed-point loop. -/
def friction_factor_colebrook (ops : FloatOps)
    (reynolds roughness diameter tolerance : ℚ) (max_iter : Nat) :
    Except CalcError ℚ :=
  if reynolds < 4000 then
    .error (.valueError "Colebrook equation is for turbulent flow")
  else
    let relative_roughness := roughness / diameter
    let f := 0.25 / (ops.log10 (relative_roughness / 3.7 + 5.74 / ops.rpow reynolds 0.9)) ^ 2
    colebrookIter ops relative_roughness reynolds tolerance f max_iter

/-- `HydraulicCalculator.friction_factor_swamee_jain`:
`0.25 / (log10(ε/(3.7 D) + 5.74/Re^0.9))²`. -/
def friction_factor_swamee_jain (ops : FloatOps)
    (reynolds roughness diameter : ℚ) : ℚ :=
  let relative_roughness := roughness / diameter
  let term := relative_roughness / 3.7 + 5.74 / ops.rpow reynolds 0.9
  0.25 / (ops.log10 term) ^ 2

/-- `HydraulicCalculator.velocity_from_flow`: `Q / (π D² / 4)`. -/
def velocity_from_flow (flow_rate diameter : ℚ) : ℚ :=
  let area := numpyPi * diameter ^ 2 / 4
  flow_rate / area

/-- `HydraulicCalculator.flow_from_velocity`: `v · (π D² / 4)`. -/
def flow_from_velocity (velocity diameter : ℚ) : ℚ :=
  let area := numpyPi * diameter ^ 2 / 4
  velocity * area

/-- `HydraulicCalculator.head_loss_darcy_weisbach`: `f (L/D) v² / (2g)`. -/
def head_loss_darcy_weisbach (friction_factor length diameter velocity : ℚ) : ℚ :=
  friction_factor * (length / diameter) * velocity ^ 2 / (2 * GRAVITY)

/-- `HydraulicCalculator.minor_loss`: `K v² / (2g)`. -/
def minor_loss (k_factor velocity : ℚ) : ℚ :=
  k_factor * velocity ^ 2 / (2 * GRAVITY)

/-- `HydraulicCalculator.head_to_pressure`: `ρ g h`. -/
def head_to_pressure (head density : ℚ) : ℚ :=
  density * GRAVITY * head

/-- The result dict of `HydraulicCalculator.calculate_system`. -/
structure SystemResult where
  velocity : ℚ
  reynolds : ℚ
  flow_regime : String
  friction_factor : ℚ
  head_loss_friction : ℚ
  head_loss_minor : ℚ
  elevation_head : ℚ
  total_head_loss : ℚ
  pressure_drop : ℚ
  density : ℚ
  viscosity : ℚ
deriving DecidableEq, Inhabited

/-- `HydraulicCalculator.calculate_system`: velocity, fluid properties,
Reynolds number, regime selection (`Re < 2300` laminar with `f = 64/Re`;
`Re < 4000` transitional with Swamee-Jain; otherwise turbulent with the
Colebrook solve), head losses and pressure drop.  Exceptions raised by
`reynolds_number` or `friction_factor_colebrook` propagate. -/
def calculate_system (ops : FloatOps) (flow_rate diameter length roughness : ℚ)
    (minor_losses_k : List ℚ) (temperature elevation_change : ℚ) :
    Except CalcError SystemResult :=
  let velocity := velocity_from_flow flow_rate diameter
  let viscosity := (get_kinematic_viscosity temperature).value
  let density := (get_water_density temperature).value
  match reynolds_number velocity diameter viscosity with
  | .error e => .error e
  | .ok reynolds =>
    let finish : String → ℚ → Except CalcError SystemResult :=
      fun flow_regime friction_factor =>
        let head_loss_friction :=
          head_loss_darcy_weisbach friction_factor length diameter velocity
        let head_loss_minor :=
          (minor_losses_k.map (fun k => minor_loss k velocity)).sum
        let total_head_loss := head_loss_friction + head_loss_minor + elevation_change
        let pressure_drop := head_to_pressure total_head_loss density / 1000
        .ok { velocity := velocity, reynolds := reynolds,
              flow_regime := flow_regime, friction_factor := friction_factor,
              head_loss_friction := head_loss_friction,
              head_loss_minor := head_loss_minor,
              elevation_head := elevation_change,
              total_head_loss := total_head_loss,
              pressure_drop := pressure_drop,
              density := density, viscosity := viscosity }
    if reynolds < 2300 then
      finish "Laminar" (64 / reynolds)
    else if reynolds < 4000 then
      finish "Transitional" (friction_factor_swamee_jain ops reynolds roughness diameter)
    else
      match friction_factor_colebrook ops reynolds roughness diameter 1e-6 100 with
      | .error e => .error e
      | .ok f => finish "Turbulent" f

end HydraulicCalculator

/-- `np.linspace(start, stop, num)`: `num` evenly spaced samples from
`start` to `stop` inclusive (a single sample is `start`; zero samples give
the empty array). -/
def np_linspace (start stop : ℚ) : Nat → List ℚ
  | 0 => []
  | 1 => [start]
  | n + 2 =>
    (List.range (n + 2)).map
      (fun i : Nat => start + (stop - start) * (i : ℚ) / ((n : ℚ) + 1))

/-- `np.argmin`: the index of the FIRST occurrence of the minimum value
(`np.argmin` documents that ties return the first occurrence).  On the
empty array NumPy raises; the model returns `0` there, and every use below
is guarded by a non-emptiness hypothesis. -/
def np_argmin : List ℚ → Nat
  | [] => 0
  | x :: xs => if xs.all (fun y => x ≤ y) then 0 else 1 + np_argmin xs

namespace PumpCalculator

/-- `PumpCalculator.GRAVITY = 9.81` (m/s²). -/
def GRAVITY : ℚ := 9.81

/-- The dict stored in `self.curve_data` and returned by
`generate_pump_curve`. -/
structure CurveData where
  flow : List ℚ
  head : List ℚ
  power : List ℚ
  efficiency : List ℚ
  q_bep : ℚ
  h_bep : ℚ
deriving DecidableEq

/-- The mutable attributes set in `PumpCalculator.__init__`:
`self.efficiency_data = None` (never written again anywhere in the class)
and `self.curve_data = None` (overwritten by `generate_pump_curve`). -/
structure State where
  efficiency_data : Option Unit
  curve_data : Option CurveData
deriving DecidableEq

/-- `PumpCalculator.affinity_laws_flow`: `Q₂ = Q₁ · (N₂/N₁)`. -/
def affinity_laws_flow (flow1 speed1 speed2 : ℚ) : ℚ :=
  flow1 * (speed2 / speed1)

/-- `PumpCalculator.affinity_laws_head`: `H₂ = H₁ · (N₂/N₁)²`. -/
def affinity_laws_head (head1 speed1 speed2 : ℚ) : ℚ :=
  head1 * (speed2 / speed1) ^ 2

/-- `PumpCalculator.affinity_laws_power`: `P₂ = P₁ · (N₂/N₁)³`. -/
def affinity_laws_power (power1 speed1 speed2 : ℚ) : ℚ :=
  power1 * (speed2 / speed1) ^ 3

/-- The H-Q parabola of `generate_pump_curve`:
`h_shutoff = 1.15·h_bep`, `a = (h_shutoff − h_bep)/q_bep²`,
`H(q) = h_shutoff − a q²` (before the `np.maximum(·, 0)` floor). -/
def pumpHeadAt (q_bep h_bep q : ℚ) : ℚ :=
  let h_shutoff := h_bep * 1.15
  let a := (h_shutoff - h_bep) / q_bep ^ 2
  h_shutoff - a * q ^ 2

/-- `PumpCalculator.generate_pump_curve`.  `expFn` interprets `np.exp` in
the Gaussian efficiency curve; all other arithmetic is exact.  The NumPy
vectorized expressions become `List.map`/`List.zipWith`; `np.clip(x, 0.01,
1.0)` is `min (max x 0.01) 1.0`.  The computed dict is BOTH stored into
`self.curve_data` and returned (`self.curve_data = {...}; return
self.curve_data`). -/
def generate_pump_curve (expFn : ℚ → ℚ) (self : State)
    (q_bep h_bep power_bep efficiency_bep : ℚ) (num_points : Nat) :
    State × CurveData :=
  let q_range := np_linspace 0 (1.5 * q_bep) num_points
  let h_raw := q_range.map (fun q => pumpHeadAt q_bep h_bep q)
  let h_range := h_raw.map (fun h => max h 0)
  let efficiency_range := q_range.map (fun q =>
    min (max (efficiency_bep * expFn (-0.5 * ((q / q_bep - 1) / 0.4) ^ 2)) 0.01) 1.0)
  let density : ℚ := 998.2
  let hydraulic_power := List.zipWith (fun q h => density * GRAVITY * q * h) q_range h_range
  let power_range := List.zipWith (fun hp e => hp / e) hydraulic_power efficiency_range
  let curve : CurveData :=
    { flow := q_range, head := h_range, power := power_range,
      efficiency := efficiency_range, q_bep := q_bep, h_bep := h_bep }
  ({ self with curve_data := some curve }, curve)

/-- The result dict of `PumpCalculator.operating_point`. -/
structure OperatingPointResult where
  flow_operating : ℚ
  head_operating : ℚ
  power_operating : ℚ
  efficiency_operating : ℚ
  system_curve : List ℚ
  pump_curve : List ℚ
  flow_range : List ℚ
deriving DecidableEq

/-- `PumpCalculator.operating_point`: regenerates the pump curve (mutating
`self.curve_data` through `generate_pump_curve`), evaluates the system
curve `H_static + k·Q²` at the same flow samples, and picks the sample
index minimizing `|h_pump − h_system|` via `np.argmin`. -/
def operating_point (expFn : ℚ → ℚ) (self : State)
    (h_static k_coefficient : ℚ)
    (q_bep h_bep power_bep efficiency_bep : ℚ) (num_points : Nat) :
    State × OperatingPointResult :=
  let gen := generate_pump_curve expFn self q_bep h_bep power_bep efficiency_bep num_points
  let pump_curve := gen.2
  let q_range := pump_curve.flow
  let h_system := q_range.map (fun q => h_static + k_coefficient * q ^ 2)
  let h_pump := pump_curve.head
  let diff := List.zipWith (fun a b => |a - b|) h_pump h_system
  let idx_op := np_argmin diff
  (gen.1,
   { flow_operating := q_range.getD idx_op 0,
     head_operating := h_pump.getD idx_op 0,
     power_operating := pump_curve.power.getD idx_op 0,
     efficiency_operating := pump_curve.efficiency.getD idx_op 0,
     system_curve := h_system,
     pump_curve := h_pump,
     flow_range := q_range })

/-- The result dict of `PumpCalculator.cavitation_check`. -/
structure CavitationResult where
  safe : Bool
  margin : ℚ
  status : String
  recommendation : String
  npsh_available : ℚ
  npsh_required : ℚ
deriving DecidableEq

/-- `PumpCalculator.cavitation_check`: `margin = available − required`,
`safe = margin >= safety_margin`; status `"RIESGO DE CAVITACIÓN"` when not
safe, else `"ADVERTENCIA: Margen bajo"` when `margin < 1.0`, else
`"SEGURO"`. -/
def cavitation_check (npsh_available npsh_required safety_margin : ℚ) :
    CavitationResult :=
  let margin := npsh_available - npsh_required
  let safe : Bool := decide (safety_margin ≤ margin)
  if ¬ (safety_margin ≤ margin) then
    { safe := safe, margin := margin, status := "RIESGO DE CAVITACIÓN",
      recommendation := "Aumentar NPSH disponible o seleccionar bomba con menor NPSH requerido",
      npsh_available := npsh_available, npsh_required := npsh_required }
  else if margin < 1.0 then
    { safe := safe, margin := margin, status := "ADVERTENCIA: Margen bajo",
      recommendation := "Considerar aumentar el NPSH disponible",
      npsh_available := npsh_available, npsh_required := npsh_required }
  else
    { safe := safe, margin := margin, status := "SEGURO",
      recommendation := "Condiciones de succión adecuadas",
      npsh_available := npsh_available, npsh_required := npsh_required }

end PumpCalculator

namespace Standards

/-- `Standards.STANDARD_PIPE_SIZES`: the fixed ascending list of standard
nominal diameters (mm). -/
def STANDARD_PIPE_SIZES : List ℚ :=
  [6, 8, 10, 15, 20, 25, 32, 40, 50, 65, 80, 100, 125, 150, 200,
   250, 300, 350, 400, 450, 500, 600, 700, 800, 900, 1000, 1200]

/-- The two shapes of dict returned by `Standards.select_pipe_size`:
a `status: OK` record or the explicit `status: ERROR` no-solution record. -/
inductive PipeSizeResult
  | ok (required_diameter_mm recommended_dn actual_velocity flow_rate_m3h : ℚ)
      (next_sizes : List ℚ)
  | error (message : String)
deriving DecidableEq

/-- `Standards.select_pipe_size`: required diameter from `Q = v_max·A`
(`√(4·(Q/v_max)/π)·1000` mm, `sqrt` interpreted by `ops`), filter of the
ascending standard sizes, first suitable size, actual velocity recomputed
at that size; empty filter gives the explicit error record. -/
def select_pipe_size (ops : FloatOps) (flow_rate max_velocity : ℚ) :
    PipeSizeResult :=
  let area_required := flow_rate / max_velocity
  let diameter_required := ops.sqrt (4 * area_required / numpyPi) * 1000
  let suitable_sizes := STANDARD_PIPE_SIZES.filter (fun dn => diameter_required ≤ dn)
  match suitable_sizes with
  | [] => .error "Diámetro requerido excede tamaños estándar"
  | recommended_dn :: rest =>
    let diameter_m := recommended_dn / 1000
    let area := numpyPi * (diameter_m / 2) ^ 2
    let actual_velocity := flow_rate / area
    .ok diameter_required recommended_dn actual_velocity (flow_rate * 3600)
      (if 1 < (recommended_dn :: rest).length then (recommended_dn :: rest).take 3
       else recommended_dn :: rest)

end Standards

theorem np_linspace_length (a b : ℚ) (n : Nat) : (np_linspace a b n).length = n := by
  match n with
  | 0 => rfl
  | 1 => rfl
  | k + 2 => rw [np_linspace, List.length_map, List.length_range]

theorem np_linspace_zero_pairwise (s : ℚ) (hs : 0 ≤ s) (n : Nat) :
    (np_linspace 0 s n).Pairwise (fun a b => 0 ≤ a ∧ a ≤ b) := by
  match n with
  | 0 => exact List.Pairwise.nil
  | 1 => simp [np_linspace]
  | k + 2 =>
    rw [np_linspace]
    refine List.Pairwise.map _ ?_ (List.pairwise_lt_range _)
    intro a b hab
    have hk : (0 : ℚ) < (k : ℚ) + 1 := by positivity
    have ha0 : (0 : ℚ) ≤ (a : ℚ) := Nat.cast_nonneg a
    constructor
    · rw [zero_add, sub_zero]
      positivity
    · rw [zero_add, zero_add, sub_zero]
      have hab' : (a : ℚ) ≤ (b : ℚ) := by exact_mod_cast hab.le
      exact (div_le_div_iff_of_pos_right hk).mpr (mul_le_mul_of_nonneg_left hab' hs)

theorem np_linspace_head (a b : ℚ) (n : Nat) (hn : n ≠ 0) :
    (np_linspace a b n).head? = some a := by
  match n with
  | 1 => rfl
  | k + 2 =>
    rw [np_linspace, List.range_succ_eq_map]
    simp

/-- Claim C8: for positive BEP flow and head, the head samples of the
generated pump curve are non-increasing along the flow samples, every head
sample is ≥ 0 (negative parabola values floored to zero), the sample at
zero flow equals `1.15 × h_bep` whenever at least one sample exists, and
the head parabola passes through the BEP point exactly. -/
theorem c8_pump_curve_head_properties (expFn : ℚ → ℚ)
    (self : PumpCalculator.State)
    (q_bep h_bep power_bep efficiency_bep : ℚ) (num_points : Nat)
    (hq : 0 < q_bep) (hh : 0 < h_bep) :
    ((PumpCalculator.generate_pump_curve expFn self q_bep h_bep power_bep
        efficiency_bep num_points).2.head).Pairwise (· ≥ ·) ∧
    (∀ x ∈ (PumpCalculator.generate_pump_curve expFn self q_bep h_bep power_bep
        efficiency_bep num_points).2.head, 0 ≤ x) ∧
    (num_points ≠ 0 →
      ((PumpCalculator.generate_pump_curve expFn self q_bep h_bep power_bep
          efficiency_bep num_points).2.head).head? = some (h_bep * 1.15)) ∧
    PumpCalculator.pumpHeadAt q_bep h_bep q_bep = h_bep := by
  have hcoef : 0 ≤ (h_bep * 1.15 - h_bep) / q_bep ^ 2 :=
    div_nonneg (by linarith) (sq_nonneg q_bep)
  refine ⟨?_, ?_, ?_, ?_⟩
  · show ((np_linspace 0 (1.5 * q_bep) num_points).map
        (fun q => PumpCalculator.pumpHeadAt q_bep h_bep q) |>.map
          (fun x => max x 0)).Pairwise (· ≥ ·)
    rw [List.map_map]
    refine List.Pairwise.map _ ?_
      (np_linspace_zero_pairwise (1.5 * q_bep) (by positivity) num_points)
    rintro a b ⟨ha, hab⟩
    show max (PumpCalculator.pumpHeadAt q_bep h_bep b) 0 ≤
      max (PumpCalculator.pumpHeadAt q_bep h_bep a) 0
    refine max_le_max ?_ le_rfl
    rw [PumpCalculator.pumpHeadAt, PumpCalculator.pumpHeadAt]
    have : a ^ 2 ≤ b ^ 2 := pow_le_pow_left₀ ha hab 2
    have := mul_le_mul_of_nonneg_left this hcoef
    linarith
  · intro x hx
    rw [show (PumpCalculator.generate_pump_curve expFn self q_bep h_bep power_bep
        efficiency_bep num_points).2.head =
      ((np_linspace 0 (1.5 * q_bep) num_points).map
        (fun q => PumpCalculator.pumpHeadAt q_bep h_bep q) |>.map
          (fun x => max x 0)) from rfl, List.map_map] at hx
    obtain ⟨q, _, rfl⟩ := List.mem_map.mp hx
    exact le_max_right _ 0
  · intro hn
    show ((np_linspace 0 (1.5 * q_bep) num_points).map
        (fun q => PumpCalculator.pumpHeadAt q_bep h_bep q) |>.map
          (fun x => max x 0)).head? = some (h_bep * 1.15)
    rw [List.map_map, List.head?_map, np_linspace_head _ _ _ hn]
    have : PumpCalculator.pumpHeadAt q_bep h_bep 0 = h_bep * 1.15 := by
      rw [PumpCalculator.pumpHeadAt]
      ring
    simp only [Option.map_some', Function.comp_apply, this]
    rw [max_eq_left (mul_nonneg hh.le (by norm_num : (0 : ℚ) ≤ 1.15))]
  · rw [PumpCalculator.pumpHeadAt]
    field_simp

/-- Witness for C8 at BEP flow 2, BEP head 1, three samples. -/
theorem c8_witness :
    (0 : ℚ) < 2 ∧ (0 : ℚ) < 1 ∧
    (((PumpCalculator.generate_pump_curve (fun _ => 1) ⟨none, none⟩ 2 1 1 (4/5)
        3).2.head).Pairwise (· ≥ ·) ∧
     (∀ x ∈ (PumpCalculator.generate_pump_curve (fun _ => 1) ⟨none, none⟩ 2 1 1
        (4/5) 3).2.head, 0 ≤ x) ∧
     ((3 : Nat) ≠ 0 →
       ((PumpCalculator.generate_pump_curve (fun _ => 1) ⟨none, none⟩ 2 1 1 (4/5)
          3).2.head).head? = some ((1 : ℚ) * 1.15)) ∧
     PumpCalculator.pumpHeadAt 2 1 2 = 1) :=
  ⟨by norm_num, by norm_num,
   c8_pump_curve_head_properties (fun _ => 1) ⟨none, none⟩ 2 1 1 (4/5) 3
     (by norm_num) (by norm_num)⟩

theorem standard_sizes_sorted :
    Standards.STANDARD_PIPE_SIZES.Pairwise (· ≤ ·) := by decide

theorem standard_sizes_pos : ∀ m ∈ Standards.STANDARD_PIPE_SIZES, 0 < m := by decide

theorem filter_head_min {p : ℚ → Bool} {l : List ℚ} (hl : l.Pairwise (· ≤ ·))
    {x : ℚ} {rest : List ℚ} (hf : l.filter p = x :: rest) :
    ∀ m ∈ l, p m = true → x ≤ m := by
  intro m hm hpm
  have hmf : m ∈ l.filter p := List.mem_filter.mpr ⟨hm, hpm⟩
  rw [hf] at hmf
  rcases List.mem_cons.mp hmf with h | h
  · exact h ▸ le_refl x
  · have hp2 : (l.filter p).Pairwise (· ≤ ·) := hl.filter p
    rw [hf] at hp2
    exact (List.pairwise_cons.mp hp2).1 m h

/-- Claim C9: under the two defining properties of the square root actually
used (nonnegative, and squaring returns its argument), `select_pipe_size`
with positive flow and positive velocity limit either returns the first —
hence smallest — standard nominal size at least the required diameter
together with an actual velocity not exceeding the given maximum, or
returns the explicit no-solution record exactly when every standard size is
smaller than the required diameter. -/
theorem c9_select_pipe_size_correct (ops : FloatOps) (Q vmax : ℚ)
    (hQ : 0 < Q) (hv : 0 < vmax)
    (hs0 : 0 ≤ ops.sqrt (4 * (Q / vmax) / numpyPi))
    (hs : ops.sqrt (4 * (Q / vmax) / numpyPi) ^ 2 = 4 * (Q / vmax) / numpyPi) :
    (match Standards.select_pipe_size ops Q vmax with
     | .ok dreq dn v _ _ =>
         dreq = ops.sqrt (4 * (Q / vmax) / numpyPi) * 1000 ∧
         dn ∈ Standards.STANDARD_PIPE_SIZES ∧ dreq ≤ dn ∧
         (∀ m ∈ Standards.STANDARD_PIPE_SIZES, dreq ≤ m → dn ≤ m) ∧
         v ≤ vmax
     | .error _ =>
         ∀ m ∈ Standards.STANDARD_PIPE_SIZES,
           m < ops.sqrt (4 * (Q / vmax) / numpyPi) * 1000) := by
  have hpi : (0 : ℚ) < numpyPi := by rw [numpyPi]; norm_num
  simp only [Standards.select_pipe_size]
  cases hfil : Standards.STANDARD_PIPE_SIZES.filter
      (fun dn => decide (ops.sqrt (4 * (Q / vmax) / numpyPi) * 1000 ≤ dn)) with
  | nil =>
    intro m hm
    have := List.filter_eq_nil_iff.mp hfil m hm
    rw [decide_eq_true_eq] at this
    exact not_le.mp this
  | cons dn rest =>
    have hdn_filter : dn ∈ Standards.STANDARD_PIPE_SIZES.filter
        (fun dn => decide (ops.sqrt (4 * (Q / vmax) / numpyPi) * 1000 ≤ dn)) := by
      rw [hfil]
      exact List.mem_cons_self dn rest
    obtain ⟨hdn_mem, hdn_cond⟩ := List.mem_filter.mp hdn_filter
    rw [decide_eq_true_eq] at hdn_cond
    have hdn_pos : 0 < dn := standard_sizes_pos dn hdn_mem
    refine ⟨rfl, hdn_mem, hdn_cond, ?_, ?_⟩
    · intro m hm hreq
      exact filter_head_min standard_sizes_sorted hfil m hm
        (decide_eq_true hreq)
    · have h1 : ops.sqrt (4 * (Q / vmax) / numpyPi) ≤ dn / 1000 := by
        rw [le_div_iff (by norm_num : (0 : ℚ) < 1000)]
        exact hdn_cond
      have h2 : ops.sqrt (4 * (Q / vmax) / numpyPi) ^ 2 ≤ (dn / 1000) ^ 2 :=
        pow_le_pow_left₀ hs0 h1 2
      rw [hs] at h2
      have harea_ge : Q / vmax ≤ numpyPi * (dn / 1000 / 2) ^ 2 := by
        have h3 := mul_le_mul_of_nonneg_left h2 hpi.le
        have h4 : numpyPi * (4 * (Q / vmax) / numpyPi) = 4 * (Q / vmax) := by
          field_simp
          ring
        calc Q / vmax = numpyPi * (4 * (Q / vmax) / numpyPi) / 4 := by
              rw [h4]; ring
          _ ≤ numpyPi * (dn / 1000) ^ 2 / 4 := by linarith
          _ = numpyPi * (dn / 1000 / 2) ^ 2 := by ring
      have harea_pos : 0 < numpyPi * (dn / 1000 / 2) ^ 2 := by positivity
      rw [div_le_iff harea_pos]
      have h5 : vmax * (Q / vmax) = Q := by field_simp
      nlinarith [mul_le_mul_of_nonneg_left harea_ge hv.le]

/-- Square-root interpretation for the C9 witness: constantly `1/10`
(the exact square root of the value it is applied to there). -/
def c9ops : FloatOps :=
  { log10 := fun _ => 0, sqrt := fun _ => 1/10, exp := fun _ => 0,
    rpow := fun _ _ => 0 }

/-- Witness for C9 at `Q = π/200` m³/s and `v_max = 2` m/s, where the
required diameter is exactly 100 mm and DN 100 is selected. -/
theorem c9_witness :
    (0 : ℚ) < numpyPi / 200 ∧ (0 : ℚ) < 2 ∧
    0 ≤ c9ops.sqrt (4 * ((numpyPi / 200) / 2) / numpyPi) ∧
    c9ops.sqrt (4 * ((numpyPi / 200) / 2) / numpyPi) ^ 2 =
      4 * ((numpyPi / 200) / 2) / numpyPi ∧
    (match Standards.select_pipe_size c9ops (numpyPi / 200) 2 with
     | .ok dreq dn v _ _ =>
         dreq = c9ops.sqrt (4 * ((numpyPi / 200) / 2) / numpyPi) * 1000 ∧
         dn ∈ Standards.STANDARD_PIPE_SIZES ∧ dreq ≤ dn ∧
         (∀ m ∈ Standards.STANDARD_PIPE_SIZES, dreq ≤ m → dn ≤ m) ∧
         v ≤ 2
     | .error _ =>
         ∀ m ∈ Standards.STANDARD_PIPE_SIZES,
           m < c9ops.sqrt (4 * ((numpyPi / 200) / 2) / numpyPi) * 1000) :=
  ⟨by rw [numpyPi]; norm_num, by norm_num, by norm_num [c9ops],
   by rw [numpyPi]; norm_num [c9ops],
   c9_select_pipe_size_correct c9ops (numpyPi / 200) 2
     (by rw [numpyPi]; norm_num) (by norm_num) (by norm_num [c9ops])
     (by rw [numpyPi]; norm_num [c9ops])⟩

theorem getD_mem {l : List ℚ} {k : Nat} (hk : k < l.length) : l.getD k 0 ∈ l := by
  induction l generalizing k with
  | nil => simp at hk
  | cons x xs ih =>
    cases k with
    | zero => exact List.mem_cons_self x xs
    | succ k =>
      rw [List.getD_cons_succ]
      exact List.mem_cons_of_mem x (ih (by simpa using hk))

theorem mem_getD {l : List ℚ} {y : ℚ} (hy : y ∈ l) :
    ∃ k, k < l.length ∧ l.getD k 0 = y := by
  induction l with
  | nil => simp at hy
  | cons x xs ih =>
    rcases List.mem_cons.mp hy with rfl | h
    · exact ⟨0, by simp, rfl⟩
    · obtain ⟨k, hk, he⟩ := ih h
      exact ⟨k + 1, by simpa using hk, he⟩

theorem exists_lt_of_not_all {x : ℚ} {xs : List ℚ}
    (h : ¬ (xs.all fun y => x ≤ y) = true) : ∃ y ∈ xs, y < x := by
  simp only [List.all_eq_true, decide_eq_true_eq] at h
  push_neg at h
  exact h

theorem np_argmin_lt_length (l : List ℚ) : l ≠ [] → np_argmin l < l.length := by
  induction l with
  | nil => intro h; exact absurd rfl h
  | cons x xs ih =>
    intro _
    rw [np_argmin]
    split_ifs with h
    · simp
    · have hxs : xs ≠ [] := by
        intro he
        rw [he] at h
        simp at h
      have h2 := ih hxs
      simp only [List.length_cons]
      omega

theorem np_argmin_min (l : List ℚ) :
    ∀ j, j < l.length → l.getD (np_argmin l) 0 ≤ l.getD j 0 := by
  induction l with
  | nil => intro j hj; simp at hj
  | cons x xs ih =>
    intro j hj
    rw [np_argmin]
    split_ifs with h
    · rw [List.getD_cons_zero]
      cases j with
      | zero => rw [List.getD_cons_zero]
      | succ k =>
        rw [List.getD_cons_succ]
        have hk : k < xs.length := by simpa using hj
        have := List.all_eq_true.mp h _ (getD_mem hk)
        exact of_decide_eq_true this
    · rw [Nat.add_comm 1 (np_argmin xs), List.getD_cons_succ]
      obtain ⟨y, hymem, hyx⟩ := exists_lt_of_not_all h
      obtain ⟨ky, hky, hkye⟩ := mem_getD hymem
      cases j with
      | zero =>
        rw [List.getD_cons_zero]
        calc xs.getD (np_argmin xs) 0 ≤ xs.getD ky 0 := ih ky hky
          _ = y := hkye
          _ ≤ x := hyx.le
      | succ k =>
        rw [List.getD_cons_succ]
        exact ih k (by simpa using hj)

theorem np_argmin_first (l : List ℚ) :
    ∀ j, j < np_argmin l → l.getD (np_argmin l) 0 < l.getD j 0 := by
  induction l with
  | nil =>
    intro j hj
    rw [np_argmin] at hj
    exact absurd hj (Nat.not_lt_zero j)
  | cons x xs ih =>
    intro j hj
    rw [np_argmin] at hj ⊢
    split_ifs at hj ⊢ with h
    · exact absurd hj (Nat.not_lt_zero j)
    · rw [Nat.add_comm 1 (np_argmin xs), List.getD_cons_succ]
      obtain ⟨y, hymem, hyx⟩ := exists_lt_of_not_all h
      obtain ⟨ky, hky, hkye⟩ := mem_getD hymem
      cases j with
      | zero =>
        rw [List.getD_cons_zero]
        calc xs.getD (np_argmin xs) 0 ≤ xs.getD ky 0 := np_argmin_min xs ky hky
          _ = y := hkye
          _ < x := hyx
      | succ k =>
        rw [List.getD_cons_succ]
        refine ih k ?_
        rw [Nat.add_comm 1 (np_argmin xs)] at hj
        omega

/-- The `diff = np.abs(h_pump - h_system)` array of `operating_point`,
reconstructed from the returned record's `pump_curve` and `system_curve`
fields (which hold exactly `h_pump` and `h_system`). -/
def opDiff (res : PumpCalculator.OperatingPointResult) : List ℚ :=
  List.zipWith (fun a b => |a - b|) res.pump_curve res.system_curve

/-- Claim C10: `operating_point` selects via `np.argmin` the sample of
least absolute pump-head/system-head difference, and among tied minimizers
the one of smallest index (smallest flow): the selected index is in range,
its difference is a minimum over all samples, every EARLIER sample has a
strictly larger difference, and the returned flow, head, power and
efficiency are all read from that one common index of the curve arrays. -/
theorem c10_operating_point_first_min (expFn : ℚ → ℚ)
    (self : PumpCalculator.State) (hs kc q h p e : ℚ) (n : Nat) (hN : n ≠ 0) :
    np_argmin (opDiff (PumpCalculator.operating_point expFn self hs kc q h p e n).2) <
      (opDiff (PumpCalculator.operating_point expFn self hs kc q h p e n).2).length ∧
    (∀ j < (opDiff (PumpCalculator.operating_point expFn self hs kc q h p e n).2).length,
      (opDiff (PumpCalculator.operating_point expFn self hs kc q h p e n).2).getD
        (np_argmin (opDiff (PumpCalculator.operating_point expFn self hs kc q h p e n).2)) 0 ≤
      (opDiff (PumpCalculator.operating_point expFn self hs kc q h p e n).2).getD j 0) ∧
    (∀ j < np_argmin (opDiff (PumpCalculator.operating_point expFn self hs kc q h p e n).2),
      (opDiff (PumpCalculator.operating_point expFn self hs kc q h p e n).2).getD
        (np_argmin (opDiff (PumpCalculator.operating_point expFn self hs kc q h p e n).2)) 0 <
      (opDiff (PumpCalculator.operating_point expFn self hs kc q h p e n).2).getD j 0) ∧
    (PumpCalculator.operating_point expFn self hs kc q h p e n).2.flow_operating =
      (PumpCalculator.operating_point expFn self hs kc q h p e n).2.flow_range.getD
        (np_argmin (opDiff (PumpCalculator.operating_point expFn self hs kc q h p e n).2)) 0 ∧
    (PumpCalculator.operating_point expFn self hs kc q h p e n).2.head_operating =
      (PumpCalculator.operating_point expFn self hs kc q h p e n).2.pump_curve.getD
        (np_argmin (opDiff (PumpCalculator.operating_point expFn self hs kc q h p e n).2)) 0 ∧
    (PumpCalculator.operating_point expFn self hs kc q h p e n).2.power_operating =
      (PumpCalculator.generate_pump_curve expFn self q h p e n).2.power.getD
        (np_argmin (opDiff (PumpCalculator.operating_point expFn self hs kc q h p e n).2)) 0 ∧
    (PumpCalculator.operating_point expFn self hs kc q h p e n).2.efficiency_operating =
      (PumpCalculator.generate_pump_curve expFn self q h p e n).2.efficiency.getD
        (np_argmin (opDiff (PumpCalculator.operating_point expFn self hs kc q h p e n).2)) 0 := by
  have hlen :
      (opDiff (PumpCalculator.operating_point expFn self hs kc q h p e n).2).length = n := by
    show (List.zipWith (fun a b => |a - b|)
        (((np_linspace 0 (1.5 * q) n).map
            (fun x => PumpCalculator.pumpHeadAt q h x)).map (fun x => max x 0))
        ((np_linspace 0 (1.5 * q) n).map (fun x => hs + kc * x ^ 2))).length = n
    rw [List.length_zipWith, List.length_map, List.length_map, List.length_map,
      np_linspace_length, Nat.min_self]
  have hne : opDiff (PumpCalculator.operating_point expFn self hs kc q h p e n).2 ≠ [] := by
    intro hnil
    refine hN ?_
    rw [← hlen, hnil]
    rfl
  exact ⟨np_argmin_lt_length _ hne,
    fun j hj => np_argmin_min _ j hj,
    fun j hj => np_argmin_first _ j hj,
    rfl, rfl, rfl, rfl⟩

/-- Witness for C10 at a concrete two-sample configuration (system curve
`H = 0 + 1·Q²`, BEP flow 1, BEP head 1). -/
theorem c10_witness :
    (2 : Nat) ≠ 0 ∧
    (np_argmin (opDiff (PumpCalculator.operating_point (fun _ => 1) ⟨none, none⟩ 0 1 1 1 1 (4/5) 2).2) <
      (opDiff (PumpCalculator.operating_point (fun _ => 1) ⟨none, none⟩ 0 1 1 1 1 (4/5) 2).2).length ∧
    (∀ j < (opDiff (PumpCalculator.operating_point (fun _ => 1) ⟨none, none⟩ 0 1 1 1 1 (4/5) 2).2).length,
      (opDiff (PumpCalculator.operating_point (fun _ => 1) ⟨none, none⟩ 0 1 1 1 1 (4/5) 2).2).getD
        (np_argmin (opDiff (PumpCalculator.operating_point (fun _ => 1) ⟨none, none⟩ 0 1 1 1 1 (4/5) 2).2)) 0 ≤
      (opDiff (PumpCalculator.operating_point (fun _ => 1) ⟨none, none⟩ 0 1 1 1 1 (4/5) 2).2).getD j 0) ∧
    (∀ j < np_argmin (opDiff (PumpCalculator.operating_point (fun _ => 1) ⟨none, none⟩ 0 1 1 1 1 (4/5) 2).2),
      (opDiff (PumpCalculator.operating_point (fun _ => 1) ⟨none, none⟩ 0 1 1 1 1 (4/5) 2).2).getD
        (np_argmin (opDiff (PumpCalculator.operating_point (fun _ => 1) ⟨none, none⟩ 0 1 1 1 1 (4/5) 2).2)) 0 <
      (opDiff (PumpCalculator.operating_point (fun _ => 1) ⟨none, none⟩ 0 1 1 1 1 (4/5) 2).2).getD j 0) ∧
    (PumpCalculator.operating_point (fun _ => 1) ⟨none, none⟩ 0 1 1 1 1 (4/5) 2).2.flow_operating =
      (PumpCalculator.operating_point (fun _ => 1) ⟨none, none⟩ 0 1 1 1 1 (4/5) 2).2.flow_range.getD
        (np_argmin (opDiff (PumpCalculator.operating_point (fun _ => 1) ⟨none, none⟩ 0 1 1 1 1 (4/5) 2).2)) 0 ∧
    (PumpCalculator.operating_point (fun _ => 1) ⟨none, none⟩ 0 1 1 1 1 (4/5) 2).2.head_operating =
      (PumpCalculator.operating_point (fun _ => 1) ⟨none, none⟩ 0 1 1 1 1 (4/5) 2).2.pump_curve.getD
        (np_argmin (opDiff (PumpCalculator.operating_point (fun _ => 1) ⟨none, none⟩ 0 1 1 1 1 (4/5) 2).2)) 0 ∧
    (PumpCalculator.operating_point (fun _ => 1) ⟨none, none⟩ 0 1 1 1 1 (4/5) 2).2.power_operating =
      (PumpCalculator.generate_pump_curve (fun _ => 1) ⟨none, none⟩ 1 1 1 (4/5) 2).2.power.getD
        (np_argmin (opDiff (PumpCalculator.operating_point (fun _ => 1) ⟨none, none⟩ 0 1 1 1 1 (4/5) 2).2)) 0 ∧
    (PumpCalculator.operating_point (fun _ => 1) ⟨none, none⟩ 0 1 1 1 1 (4/5) 2).2.efficiency_operating =
      (PumpCalculator.generate_pump_curve (fun _ => 1) ⟨none, none⟩ 1 1 1 (4/5) 2).2.efficiency.getD
        (np_argmin (opDiff (PumpCalculator.operating_point (fun _ => 1) ⟨none, none⟩ 0 1 1 1 1 (4/5) 2).2)) 0) :=
  ⟨by decide,
   c10_operating_point_first_min (fun _ => 1) ⟨none, none⟩ 0 1 1 1 1 (4/5) 2 (by decide)⟩

/-- Claim C1 is false as stated: at temperature −5 °C (below the lowest
anchor) `get_kinematic_viscosity` returns the 100 °C tabulated value
(0.294e-6), not the 0 °C value (1.787e-6) demanded by the claim, and
`get_water_density` emits no advisory at all for out-of-range
temperatures. -/
theorem c1_counterexample :
    (HydraulicCalculator.get_kinematic_viscosity (-5)).value = 0.294e-6 ∧
    (0.294e-6 : ℚ) ≠ 1.787e-6 ∧
    (HydraulicCalculator.get_water_density (-5)).warned = false := by
  refine ⟨?_, by norm_num, rfl⟩
  show HydraulicCalculator.tableLookup HydraulicCalculator.viscosity_table (-5) = _
  rw [HydraulicCalculator.tableLookup_clamps HydraulicCalculator.viscosity_anchors_mem
    (Or.inl (by norm_num))]
  rfl

/-- Claim C1, amended: for any temperature below 0 °C or above 100 °C, both
fluid-property lookups return the tabulated value of the HIGHEST anchor
(100 °C) — on both sides of the table — the calculation proceeds without
aborting, `get_kinematic_viscosity` emits a non-fatal advisory, and
`get_water_density` emits none. -/
theorem c1_out_of_range_clamps_to_highest_anchor (t : ℚ)
    (h : t < 0 ∨ 100 < t) :
    (HydraulicCalculator.get_kinematic_viscosity t).value = 0.294e-6 ∧
    (HydraulicCalculator.get_kinematic_viscosity t).warned = true ∧
    (HydraulicCalculator.get_water_density t).value = 958.4 ∧
    (HydraulicCalculator.get_water_density t).warned = false := by
  refine ⟨?_, ?_, ?_, rfl⟩
  · show HydraulicCalculator.tableLookup HydraulicCalculator.viscosity_table t = _
    rw [HydraulicCalculator.tableLookup_clamps HydraulicCalculator.viscosity_anchors_mem h]
    rfl
  · show (decide (t < 0) || decide (100 < t)) = true
    rcases h with h | h <;> simp [h]
  · show HydraulicCalculator.tableLookup HydraulicCalculator.density_table t = _
    rw [HydraulicCalculator.tableLookup_clamps HydraulicCalculator.density_anchors_mem h]
    rfl

/-- Witness for the amended C1 at the concrete temperature −5 °C. -/
theorem c1_witness :
    ((-5 : ℚ) < 0 ∨ 100 < (-5 : ℚ)) ∧
    ((HydraulicCalculator.get_kinematic_viscosity (-5)).value = 0.294e-6 ∧
     (HydraulicCalculator.get_kinematic_viscosity (-5)).warned = true ∧
     (HydraulicCalculator.get_water_density (-5)).value = 958.4 ∧
     (HydraulicCalculator.get_water_density (-5)).warned = false) :=
  ⟨Or.inl (by norm_num),
   c1_out_of_range_clamps_to_highest_anchor (-5) (Or.inl (by norm_num))⟩

/-- Claim C2 is false as stated: starting from the freshly initialized
state (`curve_data = None`), one call to `generate_pump_curve` leaves the
object in a different state — the computed curve IS kept in the
`curve_data` field (`self.curve_data = {...}` in the source). -/
theorem c2_counterexample :
    (PumpCalculator.generate_pump_curve (fun _ => 1)
        ⟨none, none⟩ 1 1 1 (4/5) 2).1 ≠ (⟨none, none⟩ : PumpCalculator.State) := by
  intro h
  have h2 := congrArg PumpCalculator.State.curve_data h
  simp [PumpCalculator.generate_pump_curve] at h2

/-- Claim C2, amended: `generate_pump_curve` retains the computed curve in
the engine-owned mutable field `curve_data` (in addition to returning it),
so the claim's no-retention property fails; however the curve returned by a
call depends only on that call's arguments — not on any previously retained
state — and `operating_point` simply passes the mutated state through, so
two successive invocations do not interfere through the retained value. -/
theorem c2_curve_retained_but_calls_independent (expFn : ℚ → ℚ)
    (s1 s2 : PumpCalculator.State) (hs kc q h p e : ℚ) (n : Nat) :
    (PumpCalculator.generate_pump_curve expFn s1 q h p e n).1 =
      { efficiency_data := s1.efficiency_data,
        curve_data := some (PumpCalculator.generate_pump_curve expFn s1 q h p e n).2 } ∧
    (PumpCalculator.generate_pump_curve expFn s1 q h p e n).2 =
      (PumpCalculator.generate_pump_curve expFn s2 q h p e n).2 ∧
    (PumpCalculator.operating_point expFn s1 hs kc q h p e n).1 =
      (PumpCalculator.generate_pump_curve expFn s1 q h p e n).1 ∧
    (PumpCalculator.operating_point expFn s1 hs kc q h p e n).2 =
      (PumpCalculator.operating_point expFn s2 hs kc q h p e n).2 :=
  ⟨rfl, rfl, rfl, rfl⟩

/-- Claim C3 is false as stated: with the default safety margin 0.5 m,
`npsh_available = 0.7`, `npsh_required = 0`, the margin 0.7 is ≥ the safety
margin, yet the status is the marginal tier `"ADVERTENCIA: Margen bajo"`,
not `"SEGURO"` as the claim's safe tier demands. -/
theorem c3_counterexample :
    (1 / 2 : ℚ) ≤ (PumpCalculator.cavitation_check (7/10) 0 (1/2)).margin ∧
    (PumpCalculator.cavitation_check (7/10) 0 (1/2)).status ≠ "SEGURO" ∧
    (PumpCalculator.cavitation_check (7/10) 0 (1/2)).status =
      "ADVERTENCIA: Margen bajo" := by
  have h : PumpCalculator.cavitation_check (7/10) 0 (1/2) =
      { safe := true, margin := 7/10, status := "ADVERTENCIA: Margen bajo",
        recommendation := "Considerar aumentar el NPSH disponible",
        npsh_available := 7/10, npsh_required := 0 } := by
    simp only [PumpCalculator.cavitation_check]
    norm_num
  rw [h]
  exact ⟨by norm_num, by decide, rfl⟩

/-- Claim C3, amended: `cavitation_check` reports
`margin = npsh_available − npsh_required`, a `safe` flag true exactly when
`margin ≥ safety_margin`, and the three-tier status with tiers: unsafe
(`"RIESGO DE CAVITACIÓN"`) exactly when `margin < safety_margin`; marginal
(`"ADVERTENCIA: Margen bajo"`) exactly when `safety_margin ≤ margin < 1.0`;
`"SEGURO"` exactly when `margin ≥ safety_margin` and `margin ≥ 1.0`. -/
theorem c3_cavitation_three_tier (a r sm : ℚ) :
    (PumpCalculator.cavitation_check a r sm).margin = a - r ∧
    ((PumpCalculator.cavitation_check a r sm).safe = true ↔ sm ≤ a - r) ∧
    ((PumpCalculator.cavitation_check a r sm).status = "RIESGO DE CAVITACIÓN" ↔
      a - r < sm) ∧
    ((PumpCalculator.cavitation_check a r sm).status = "ADVERTENCIA: Margen bajo" ↔
      (sm ≤ a - r ∧ a - r < 1)) ∧
    ((PumpCalculator.cavitation_check a r sm).status = "SEGURO" ↔
      (sm ≤ a - r ∧ 1 ≤ a - r)) := by
  have e1 : ("RIESGO DE CAVITACIÓN" : String) ≠ "ADVERTENCIA: Margen bajo" := by decide
  have e2 : ("RIESGO DE CAVITACIÓN" : String) ≠ "SEGURO" := by decide
  have e3 : ("ADVERTENCIA: Margen bajo" : String) ≠ "RIESGO DE CAVITACIÓN" := by decide
  have e4 : ("ADVERTENCIA: Margen bajo" : String) ≠ "SEGURO" := by decide
  have e5 : ("SEGURO" : String) ≠ "RIESGO DE CAVITACIÓN" := by decide
  have e6 : ("SEGURO" : String) ≠ "ADVERTENCIA: Margen bajo" := by decide
  simp only [PumpCalculator.cavitation_check]
  split_ifs with h1 h2
  · have h2' : a - r < 1 := by
      calc a - r < 1.0 := h2
        _ = 1 := by norm_num
    refine ⟨rfl, ?_, ?_, ?_, ?_⟩
    · simp [decide_eq_true_eq, h1]
    · simp [e3, not_lt.mpr h1]
    · simp [h1, h2']
    · simp [e4, not_le.mpr h2']
  · have h2' : (1 : ℚ) ≤ a - r := by
      calc (1 : ℚ) = 1.0 := by norm_num
        _ ≤ a - r := not_lt.mp h2
    refine ⟨rfl, ?_, ?_, ?_, ?_⟩
    · simp [decide_eq_true_eq, h1]
    · simp [e5, not_lt.mpr h1]
    · simp [e6, not_lt.mpr h2']
    · simp [h1, h2']
  · refine ⟨rfl, ?_, ?_, ?_, ?_⟩
    · simp [decide_eq_true_eq, h1]
    · simp [not_le.mp h1]
    · simp [e1, h1]
    · simp [e2, h1]

/-- Claim C6: `flow_from_velocity` inverts `velocity_from_flow` exactly for
every flow rate and every positive diameter. -/
theorem c6_flow_velocity_roundtrip (Q D : ℚ) (hD : 0 < D) :
    HydraulicCalculator.flow_from_velocity
      (HydraulicCalculator.velocity_from_flow Q D) D = Q := by
  rw [HydraulicCalculator.flow_from_velocity, HydraulicCalculator.velocity_from_flow]
  have hpi : numpyPi ≠ 0 := by rw [numpyPi]; norm_num
  field_simp

/-- Witness for C6 at `Q = 3`, `D = 1/10`. -/
theorem c6_witness :
    (0 : ℚ) < 1/10 ∧
    HydraulicCalculator.flow_from_velocity
      (HydraulicCalculator.velocity_from_flow 3 (1/10)) (1/10) = 3 :=
  ⟨by norm_num, c6_flow_velocity_roundtrip 3 (1/10) (by norm_num)⟩

/-- Claim C7: the three affinity laws scale flow linearly, head
quadratically and power cubically in the speed ratio, for all positive
speeds; each is a pure function of its arguments. -/
theorem c7_affinity_laws (Q H P n1 n2 : ℚ) (h1 : 0 < n1) (h2 : 0 < n2) :
    PumpCalculator.affinity_laws_flow Q n1 n2 = Q * (n2 / n1) ∧
    PumpCalculator.affinity_laws_head H n1 n2 = H * (n2 / n1) ^ 2 ∧
    PumpCalculator.affinity_laws_power P n1 n2 = P * (n2 / n1) ^ 3 :=
  ⟨rfl, rfl, rfl⟩

/-- Witness for C7 at `Q = 5`, `H = 7`, `P = 11`, `n1 = 2`, `n2 = 3`. -/
theorem c7_witness :
    (0 : ℚ) < 2 ∧ (0 : ℚ) < 3 ∧
    (PumpCalculator.affinity_laws_flow 5 2 3 = 5 * (3 / 2) ∧
     PumpCalculator.affinity_laws_head 7 2 3 = 7 * (3 / 2) ^ 2 ∧
     PumpCalculator.affinity_laws_power 11 2 3 = 11 * (3 / 2) ^ 3) :=
  ⟨by norm_num, by norm_num, c7_affinity_laws 5 7 11 2 3 (by norm_num) (by norm_num)⟩

theorem colebrookIter_spec (ops : FloatOps) (relR re tol : ℚ) (fuel : Nat) :
    ∀ f0 : ℚ,
      (∃ fPrev fFinal,
          HydraulicCalculator.colebrookIter ops relR re tol f0 fuel = .ok fFinal ∧
          fFinal = HydraulicCalculator.colebrookStep ops relR re fPrev ∧
          |fFinal - fPrev| < tol) ∨
      HydraulicCalculator.colebrookIter ops relR re tol f0 fuel =
        .error (.runtimeError "Colebrook iteration did not converge") := by
  induction fuel with
  | zero => intro f0; exact Or.inr rfl
  | succ n ih =>
    intro f0
    rw [show HydraulicCalculator.colebrookIter ops relR re tol f0 (n + 1) =
        (if |HydraulicCalculator.colebrookStep ops relR re f0 - f0| < tol then
          Except.ok (HydraulicCalculator.colebrookStep ops relR re f0)
        else
          HydraulicCalculator.colebrookIter ops relR re tol
            (HydraulicCalculator.colebrookStep ops relR re f0) n) from rfl]
    by_cases hconv : |HydraulicCalculator.colebrookStep ops relR re f0 - f0| < tol
    · rw [if_pos hconv]
      exact Or.inl ⟨f0, _, rfl, rfl, hconv⟩
    · rw [if_neg hconv]
      exact ih (HydraulicCalculator.colebrookStep ops relR re f0)

/-- Claim C5: for any interpretation of the floating primitives and any
turbulent Reynolds number, `friction_factor_colebrook` with the default
tolerance 1e-6 and budget 100 either returns an iterate that differs from
its predecessor by less than the tolerance (never a stale iterate, never
the raw Swamee-Jain seed), or fails with the distinct `RuntimeError`
non-convergence signal. -/
theorem c5_colebrook_converged_or_error (ops : FloatOps)
    (reynolds roughness diameter : ℚ) (h : 4000 ≤ reynolds) :
    (∃ fPrev fFinal,
        HydraulicCalculator.friction_factor_colebrook ops reynolds roughness diameter
          1e-6 100 = .ok fFinal ∧
        fFinal = HydraulicCalculator.colebrookStep ops (roughness / diameter) reynolds fPrev ∧
        |fFinal - fPrev| < 1e-6) ∨
    HydraulicCalculator.friction_factor_colebrook ops reynolds roughness diameter
      1e-6 100 =
      .error (.runtimeError "Colebrook iteration did not converge") := by
  rw [HydraulicCalculator.friction_factor_colebrook, if_neg (not_lt.mpr h)]
  exact colebrookIter_spec ops (roughness / diameter) reynolds 1e-6 100 _

theorem colebrookIter_succ (ops : FloatOps) (relR re tol f : ℚ) (n : Nat) :
    HydraulicCalculator.colebrookIter ops relR re tol f (n + 1) =
      if |HydraulicCalculator.colebrookStep ops relR re f - f| < tol then
        Except.ok (HydraulicCalculator.colebrookStep ops relR re f)
      else
        HydraulicCalculator.colebrookIter ops relR re tol
          (HydraulicCalculator.colebrookStep ops relR re f) n := rfl

/-- Claim C4: whenever `calculate_system` returns a result record, the flow
regime tag and the friction-factor method are the pure function of the
Reynolds number with boundaries 2300 and 4000: strictly below 2300 the
laminar tag with the closed form `64/Re`; in `[2300, 4000)` the
transitional tag with the explicit Swamee-Jain value; at and above 4000 the
turbulent tag with the value produced by the implicit Colebrook solve. -/
theorem c4_regime_selection (ops : FloatOps)
    (flow_rate diameter length roughness : ℚ) (ks : List ℚ)
    (temperature elevation_change : ℚ) (r : HydraulicCalculator.SystemResult)
    (h : HydraulicCalculator.calculate_system ops flow_rate diameter length
        roughness ks temperature elevation_change = .ok r) :
    (r.reynolds < 2300 →
      r.flow_regime = "Laminar" ∧ r.friction_factor = 64 / r.reynolds) ∧
    (2300 ≤ r.reynolds → r.reynolds < 4000 →
      r.flow_regime = "Transitional" ∧
      r.friction_factor =
        HydraulicCalculator.friction_factor_swamee_jain ops r.reynolds
          roughness diameter) ∧
    (4000 ≤ r.reynolds →
      r.flow_regime = "Turbulent" ∧
      HydraulicCalculator.friction_factor_colebrook ops r.reynolds roughness
        diameter 1e-6 100 = .ok r.friction_factor) := by
  simp only [HydraulicCalculator.calculate_system] at h
  split at h
  · exact absurd h (by simp)
  · rename_i re hre
    split_ifs at h with h1 h2
    · rw [Except.ok.injEq] at h
      subst h
      refine ⟨fun _ => ⟨rfl, rfl⟩, fun hge _ => absurd h1 (not_lt.mpr hge),
        fun hge => absurd h1 (not_lt.mpr (by linarith))⟩
    · rw [Except.ok.injEq] at h
      subst h
      refine ⟨fun hlt => absurd hlt h1, fun _ _ => ⟨rfl, rfl⟩,
        fun hge => absurd h2 (not_lt.mpr hge)⟩
    · rcases hcb : HydraulicCalculator.friction_factor_colebrook ops re roughness
          diameter 1e-6 100 with e | f
      · rw [hcb] at h
        simp at h
      · rw [hcb] at h
        simp only [Except.ok.injEq] at h
        subst h
        refine ⟨fun hlt => absurd hlt h1, fun _ hlt => absurd hlt h2,
          fun _ => ⟨rfl, hcb⟩⟩

/-- Constant interpretation of the floating primitives used by concrete
witnesses: `log10 = 2`, `sqrt = 1`, `exp = 1`, `rpow = 1`. -/
def testOps : FloatOps :=
  { log10 := fun _ => 2, sqrt := fun _ => 1, exp := fun _ => 1, rpow := fun _ _ => 1 }

/-- The concrete result record produced by `calculate_system` at the C4
witness input (flow `π/400` m³/s, diameter 0.1 m, length 100 m, roughness
5e-5 m, no fittings, 20 °C, no elevation change, constant primitives). -/
def c4r : HydraulicCalculator.SystemResult :=
  { velocity := 1, reynolds := 25000000 / 251, flow_regime := "Turbulent",
    friction_factor := 1 / 16, head_loss_friction := 3125 / 981,
    head_loss_minor := 0, elevation_head := 0, total_head_loss := 3125 / 981,
    pressure_drop := 4991 / 160, density := 998.2, viscosity := 1.004e-6 }

/-- Witness for C4: a concrete turbulent run of `calculate_system`
(Reynolds ≈ 99601.6 ≥ 4000) returning the record `c4r`. -/
theorem c4_witness :
    HydraulicCalculator.calculate_system testOps (numpyPi / 400) (1/10) 100
      (5/100000) [] 20 0 = .ok c4r ∧
    ((c4r.reynolds < 2300 →
        c4r.flow_regime = "Laminar" ∧ c4r.friction_factor = 64 / c4r.reynolds) ∧
     (2300 ≤ c4r.reynolds → c4r.reynolds < 4000 →
        c4r.flow_regime = "Transitional" ∧
        c4r.friction_factor =
          HydraulicCalculator.friction_factor_swamee_jain testOps c4r.reynolds
            (5/100000) (1/10)) ∧
     (4000 ≤ c4r.reynolds →
        c4r.flow_regime = "Turbulent" ∧
        HydraulicCalculator.friction_factor_colebrook testOps c4r.reynolds
          (5/100000) (1/10) 1e-6 100 = .ok c4r.friction_factor)) := by
  have hcb : HydraulicCalculator.friction_factor_colebrook testOps
      (25000000 / 251) (5/100000) (1/10) 1e-6 100 = .ok (1/16) := by
    rw [HydraulicCalculator.friction_factor_colebrook, if_neg (by norm_num)]
    rw [show (100 : Nat) = 99 + 1 from rfl, colebrookIter_succ]
    norm_num [testOps, HydraulicCalculator.colebrookStep]
  have he : HydraulicCalculator.calculate_system testOps (numpyPi / 400) (1/10)
      100 (5/100000) [] 20 0 = .ok c4r := by
    have hv : HydraulicCalculator.velocity_from_flow (numpyPi / 400) (1/10) = 1 := by
      rw [HydraulicCalculator.velocity_from_flow]
      norm_num [numpyPi]
    have hvisc : (HydraulicCalculator.get_kinematic_viscosity 20).value = 1.004e-6 := by
      norm_num [HydraulicCalculator.get_kinematic_viscosity,
        HydraulicCalculator.tableLookup, HydraulicCalculator.exactScan,
        HydraulicCalculator.viscosity_table]
    have hdens : (HydraulicCalculator.get_water_density 20).value = 998.2 := by
      norm_num [HydraulicCalculator.get_water_density,
        HydraulicCalculator.tableLookup, HydraulicCalculator.exactScan,
        HydraulicCalculator.density_table]
    have hre : HydraulicCalculator.reynolds_number 1 (1/10) 1.004e-6 =
        .ok (25000000 / 251) := by
      rw [HydraulicCalculator.reynolds_number, if_neg (by norm_num)]
      norm_num
    simp only [HydraulicCalculator.calculate_system, hv, hvisc, hdens, hre]
    rw [if_neg (by norm_num), if_neg (by norm_num), hcb]
    simp only [Except.ok.injEq]
    rw [HydraulicCalculator.SystemResult.mk.injEq]
    refine ⟨rfl, rfl, rfl, rfl, ?_, ?_, rfl, ?_, ?_, rfl, rfl⟩ <;>
      norm_num [HydraulicCalculator.head_loss_darcy_weisbach,
        HydraulicCalculator.minor_loss, HydraulicCalculator.head_to_pressure,
        HydraulicCalculator.GRAVITY, c4r]
  exact ⟨he, c4_regime_selection testOps (numpyPi / 400) (1/10) 100 (5/100000)
    [] 20 0 c4r he⟩

/-- Witness for C5 at `Re = 4000`, roughness 1, diameter 2, with the
constant primitive interpretation. -/
theorem c5_witness :
    (4000 : ℚ) ≤ 4000 ∧
    ((∃ fPrev fFinal,
        HydraulicCalculator.friction_factor_colebrook testOps 4000 1 2 1e-6 100 =
          .ok fFinal ∧
        fFinal = HydraulicCalculator.colebrookStep testOps (1 / 2) 4000 fPrev ∧
        |fFinal - fPrev| < 1e-6) ∨
     HydraulicCalculator.friction_factor_colebrook testOps 4000 1 2 1e-6 100 =
       .error (.runtimeError "Colebrook iteration did not converge")) :=
  ⟨le_refl _, c5_colebrook_converged_or_error testOps 4000 1 2 (le_refl _)⟩
